import Mathlib

/-!
Verification development for the videeoai-stage1 pipeline.

Shallow embedding of the repository's core algorithms:
* `src/pipeline/video_stitcher.py` — crossfade offset computation and the
  return shape of `_process_ffmpeg_sync`;
* `src/pipeline/orchestrator.py` — `_with_retry` and the per-stage progress
  updates;
* `src/pipeline/caption_burner.py` — caption window computation and
  `_escape_text`;
* `src/services/job_manager.py` — `update_job`;
* `src/pipeline/video_generator.py` / `src/pipeline/image_generator.py` —
  the `_poll_for_result` loops over provider status responses.

Python floats are modelled as exact rationals (`ℚ`); Python ints as `ℤ`/`ℕ`.
-/

namespace Videeo

/-! ## Video stitcher: crossfade offsets
Embeds `_process_ffmpeg_sync` (src/pipeline/video_stitcher.py, lines 267-280):

    cumulative_offset = 0.0
    for i in range(1, n):
        cumulative_offset += durations[i-1] - crossfade_duration
        ... offset={cumulative_offset} ...

The loop consumes `durations[0] .. durations[n-2]`, i.e. all but the last
measured duration, and emits one offset per transition. -/

def crossfadeOffsetsGo (crossfade : ℚ) : ℚ → List ℚ → List ℚ
  | _, [] => []
  | cumulative, d :: rest =>
    let c := cumulative + (d - crossfade)
    c :: crossfadeOffsetsGo crossfade c rest

/-- Offsets emitted for transitions `1 .. n-1` given the `n` measured clip
durations, exactly as accumulated by the loop in `_process_ffmpeg_sync`. -/
def crossfadeOffsets (durations : List ℚ) (crossfade : ℚ) : List ℚ :=
  crossfadeOffsetsGo crossfade 0 durations.dropLast

lemma crossfadeOffsetsGo_eq (crossfade : ℚ) :
    ∀ (l : List ℚ) (c : ℚ),
      crossfadeOffsetsGo crossfade c l =
        (List.range l.length).map
          (fun k => c + (l.take (k + 1)).sum - (k + 1 : ℕ) * crossfade) := by
  intro l
  induction l with
  | nil => intro c; simp [crossfadeOffsetsGo]
  | cons d rest ih =>
    intro c
    simp only [crossfadeOffsetsGo, List.length_cons, List.range_succ_eq_map,
      List.map_cons, List.map_map, ih]
    congr 1
    · simp; ring
    · apply List.map_congr_left
      intro k _
      simp only [Function.comp_apply, List.take_succ_cons, List.sum_cons]
      push_cast
      ring

/-! ## Orchestrator: retry executor
Embeds `_with_retry` (src/pipeline/orchestrator.py, lines 372-392):

    for attempt in range(max_retries + 1):
        try:
            return await func()
        except Exception as e:
            last_error = e
            if attempt < max_retries:
                wait_time = 2 ** attempt
                ... log; await asyncio.sleep(wait_time) ...
            else:
                ... log ...
    raise last_error

The operation is modelled as a function from the attempt number to a result;
the returned list collects the waits actually slept (`2 ** attempt` before
each re-attempt).  On exhaustion the code raises `last_error` itself — the
operation name and attempt count appear only in the log message. -/

/-- The loop body, running attempts `attempt, attempt+1, ...`.  The Python
guard `attempt < max_retries` is expressed through the remaining attempt
count `remaining = max_retries - attempt` (structural recursion): the guard
holds exactly when `remaining > 0`. -/
def retryFrom {E A : Type} (op : ℕ → Except E A) (attempt remaining : ℕ) :
    Except E A × List ℕ :=
  match op attempt, remaining with
  | .ok a, _ => (.ok a, [])
  | .error e, 0 => (.error e, [])
  | .error _, r + 1 =>
    let rest := retryFrom op (attempt + 1) r
    (rest.1, 2 ^ attempt :: rest.2)

/-- `_with_retry`: result together with the list of backoff waits. -/
def withRetry {E A : Type} (op : ℕ → Except E A) (maxRetries : ℕ) :
    Except E A × List ℕ :=
  retryFrom op 0 maxRetries

/-! ## Video stitcher: result shape of `_process_ffmpeg_sync`
(src/pipeline/video_stitcher.py, lines 196-302.)

Durations are measured per standardized clip by parsing ffmpeg's
`Duration:` banner; when the regex fails to match, the code appends the
fixed fallback `4.0`.  We model the measurement as a per-clip
`Option ℚ` (`none` = regex miss).

The function then branches on `n = len(std_videos)`:

    if n == 1:
        ...
        return str(output_path)          # bare string, no durations!
    ...
    return str(output_path), durations   # pair

so the single-clip case returns a bare path string while every other case
returns a `(path, durations)` pair. -/

/-- The value returned by `_process_ffmpeg_sync` (external tool invocations
assumed to succeed; `n = 0` would make the final ffmpeg invocation fail and
is not reached by the orchestrator). -/
inductive StitchResult where
  | single (path : String)
  | multi (path : String) (durations : List ℚ)
  deriving DecidableEq

def stitchDurations (measured : List (Option ℚ)) : List ℚ :=
  measured.map (fun m => m.getD 4)

def processFfmpegSync (measured : List (Option ℚ)) (outputPath : String) :
    StitchResult :=
  if measured.length = 1 then .single outputPath
  else .multi outputPath (stitchDurations measured)

/-- One component of Python's `stitch_result[i]` in
`_stage_video_stitching` (src/pipeline/orchestrator.py, lines 237-238):
indexing a tuple yields its components, indexing a string yields a
one-character string. -/
inductive StitchComponent where
  | path (p : String)
  | durations (l : List ℚ)
  | chr (c : Char)
  deriving DecidableEq

/-- Python subscript `r[i]` on the value returned by
`_process_ffmpeg_sync`: indexing a string yields its `i`-th character,
indexing a tuple yields its components; `none` models an `IndexError`. -/
def stitchIndex : StitchResult → ℕ → Option StitchComponent
  | .single p, i =>
    match p.data.drop i with
    | c :: _ => some (.chr c)
    | [] => none
  | .multi p _, 0 => some (.path p)
  | .multi _ d, 1 => some (.durations d)
  | .multi _ _, _ => none

/-! ## Orchestrator: progress updates
The sequence of `progress_percent` values written by
`job_manager.update_job` / `set_complete` over one successful run of
`run_pipeline` (src/pipeline/orchestrator.py):

* 5   — script stage start (line 89)
* 15  — script stored (line 102)
* 17  — image stage start (line 116)
* 25  — image stored (line 141)
* 27  — video stage start (line 155)
* `int(27 + i * (43 / total_scenes))` for scene `i = 0 .. n-1` (line 174)
* 70  — all scene videos stored (line 210)
* 72  — stitching start (line 219)
* 85  — stitched (line 245)
* 87  — captions start (line 259)
* 95  — captions done (line 287)
* 97  — upload start (line 300)
* 100 — `set_complete` (src/services/job_manager.py, line 100)

A stage failure truncates this sequence; the error path (`set_error`,
src/services/job_manager.py lines 81-88) passes no `progress_percent`, so
it appends nothing.  Hence the observable write sequences are exactly the
prefixes of the full list. -/

/-- `int(27 + i * (43 / total_scenes))`: Python `int()` truncates, and the
arguments here are nonnegative, so it is the floor. -/
def videoSceneProgress (n i : ℕ) : ℤ :=
  ⌊(27 : ℚ) + (i : ℚ) * (43 / (n : ℚ))⌋

def pipelineProgressUpdates (n : ℕ) : List ℤ :=
  [5, 15, 17, 25, 27] ++ (List.range n).map (videoSceneProgress n) ++
    [70, 72, 85, 87, 95, 97, 100]

lemma videoSceneProgress_ge (n i : ℕ) : 27 ≤ videoSceneProgress n i := by
  unfold videoSceneProgress
  have h0 : (0 : ℚ) ≤ (i : ℚ) * (43 / (n : ℚ)) := by positivity
  have h : (27 : ℚ) ≤ 27 + (i : ℚ) * (43 / (n : ℚ)) := by linarith
  calc (27 : ℤ) = ⌊(27 : ℚ)⌋ := by norm_num
    _ ≤ _ := Int.floor_le_floor h

lemma videoSceneProgress_le (n i : ℕ) (hi : i ≤ n) :
    videoSceneProgress n i ≤ 70 := by
  unfold videoSceneProgress
  rcases Nat.eq_zero_or_pos n with hn | hn
  · subst hn
    simp
  · have hn' : (0 : ℚ) < n := by exact_mod_cast hn
    have h : (27 : ℚ) + (i : ℚ) * (43 / (n : ℚ)) ≤ 70 := by
      have : (i : ℚ) * (43 / (n : ℚ)) ≤ 43 := by
        rw [mul_div_assoc']
        rw [div_le_iff₀ hn']
        have : (i : ℚ) ≤ n := by exact_mod_cast hi
        nlinarith
      linarith
    calc videoSceneProgress n i ≤ ⌊(70 : ℚ)⌋ := Int.floor_le_floor h
      _ = 70 := by norm_num

lemma videoSceneProgress_mono (n : ℕ) {i j : ℕ} (h : i ≤ j) :
    videoSceneProgress n i ≤ videoSceneProgress n j := by
  apply Int.floor_le_floor
  have hij : (i : ℚ) ≤ j := by exact_mod_cast h
  have hc : (0 : ℚ) ≤ 43 / (n : ℚ) := by positivity
  nlinarith

lemma pipelineProgressUpdates_chain (n : ℕ) :
    List.Chain' (· ≤ ·) (pipelineProgressUpdates n) := by
  apply List.Pairwise.chain'
  unfold pipelineProgressUpdates
  rw [List.pairwise_append, List.pairwise_append]
  refine ⟨⟨by decide, ?_, ?_⟩, by decide, ?_⟩
  · rw [List.pairwise_map]
    apply (List.pairwise_lt_range n).imp
    intro i j hij
    exact videoSceneProgress_mono n hij.le
  · intro x hx y hy
    have h1 : x ≤ 27 := by
      simp only [List.mem_cons, List.not_mem_nil, or_false] at hx
      rcases hx with rfl | rfl | rfl | rfl | rfl <;> norm_num
    have h2 : (27 : ℤ) ≤ y := by
      rw [List.mem_map] at hy
      obtain ⟨i, _, rfl⟩ := hy
      exact videoSceneProgress_ge n i
    omega
  · intro x hx y hy
    have h1 : x ≤ 70 := by
      rw [List.mem_append] at hx
      rcases hx with hx | hx
      · have : x ≤ 27 := by
          simp only [List.mem_cons, List.not_mem_nil, or_false] at hx
          rcases hx with rfl | rfl | rfl | rfl | rfl <;> norm_num
        omega
      · rw [List.mem_map] at hx
        obtain ⟨i, hi, rfl⟩ := hx
        exact videoSceneProgress_le n i (List.mem_range.mp hi).le
    have h2 : (70 : ℤ) ≤ y := by
      simp only [List.mem_cons, List.not_mem_nil, or_false] at hy
      rcases hy with rfl | rfl | rfl | rfl | rfl | rfl | rfl <;> norm_num
    omega

/-! ## Claim theorems (C2, C4, C6, C7, C10) -/

/-- C2: the crossfade offset computed for transition `i` (1-indexed) equals
`sum(durations[0..i-1]) - i * crossfade_duration`; in particular for
durations `[7, 7, 7]` and crossfade `1/2` the offsets are `13/2` and `13`. -/
theorem crossfade_offset_formula :
    (∀ (durations : List ℚ) (crossfade : ℚ) (i : ℕ),
        1 ≤ i → i ≤ (crossfadeOffsets durations crossfade).length →
        (crossfadeOffsets durations crossfade).getD (i - 1) 0 =
          (durations.take i).sum - (i : ℚ) * crossfade) ∧
      crossfadeOffsets [7, 7, 7] (1 / 2) = [13 / 2, 13] := by
  constructor
  · intro ds cf i h1 h2
    rw [crossfadeOffsets, crossfadeOffsetsGo_eq] at h2 ⊢
    rw [List.length_map, List.length_range] at h2
    have hi : i - 1 < ds.dropLast.length := by omega
    rw [List.getD_eq_getElem _ _ (by simpa using hi)]
    simp only [List.getElem_map, List.getElem_range]
    have h3 : i - 1 + 1 = i := by omega
    rw [h3]
    have htake : ds.dropLast.take i = ds.take i := by
      rw [List.dropLast_eq_take, List.take_take]
      congr 1
      rw [List.length_dropLast] at hi
      omega
    rw [htake]
    ring
  · norm_num [crossfadeOffsets, crossfadeOffsetsGo, List.dropLast]

/-- C2 witness: transition 2 for durations `[7, 7, 7]`, crossfade `1/2`. -/
theorem crossfade_offset_formula_witness :
    (1 ≤ 2 ∧ 2 ≤ (crossfadeOffsets [7, 7, 7] (1 / 2)).length) ∧
      (crossfadeOffsets [7, 7, 7] (1 / 2)).getD (2 - 1) 0 =
        (([7, 7, 7] : List ℚ).take 2).sum - ((2 : ℕ) : ℚ) * (1 / 2) :=
  ⟨⟨by norm_num,
      by norm_num [crossfadeOffsets, crossfadeOffsetsGo, List.dropLast]⟩,
    crossfade_offset_formula.1 [7, 7, 7] (1 / 2) 2 (by norm_num)
      (by norm_num [crossfadeOffsets, crossfadeOffsetsGo, List.dropLast])⟩

/-- C4: over one run of the pipeline, the sequence of `progress_percent`
values written for a job (any prefix of the successful run's updates — the
error path writes no progress value) is non-decreasing. -/
theorem progress_non_decreasing (n : ℕ) (_hn : 0 < n) (k : ℕ) :
    List.Chain' (· ≤ ·) ((pipelineProgressUpdates n).take k) :=
  (pipelineProgressUpdates_chain n).take k

/-- C4 witness: a three-scene run. -/
theorem progress_non_decreasing_witness :
    0 < 3 ∧ List.Chain' (· ≤ ·) ((pipelineProgressUpdates 3).take 20) :=
  ⟨by decide, progress_non_decreasing 3 (by decide) 20⟩

lemma retryFrom_ok {E A : Type} (op : ℕ → Except E A) (a r : ℕ) (v : A)
    (h : op a = .ok v) : retryFrom op a r = (.ok v, []) := by
  rw [retryFrom.eq_def, h]

lemma retryFrom_err_step {E A : Type} (op : ℕ → Except E A) (a r : ℕ)
    (e : E) (h : op a = .error e) :
    retryFrom op a (r + 1) =
      ((retryFrom op (a + 1) r).1, 2 ^ a :: (retryFrom op (a + 1) r).2) := by
  rw [retryFrom.eq_def, h]

lemma retryFrom_err_last {E A : Type} (op : ℕ → Except E A) (a : ℕ)
    (e : E) (h : op a = .error e) :
    retryFrom op a 0 = (.error e, []) := by
  rw [retryFrom.eq_def, h]

/-- C6: an operation failing on attempts 0 and 1 and succeeding on attempt 2,
run with `max_retries = 2`, returns the success value after backoff waits of
`2^0 = 1` and `2^1 = 2` time units. -/
theorem with_retry_two_failures_then_success {E A : Type}
    (op : ℕ → Except E A) (e0 e1 : E) (v : A)
    (h0 : op 0 = .error e0) (h1 : op 1 = .error e1) (h2 : op 2 = .ok v) :
    withRetry op 2 = (.ok v, [1, 2]) := by
  unfold withRetry
  rw [retryFrom_err_step op 0 1 e0 h0, retryFrom_err_step op 1 0 e1 h1,
    retryFrom_ok op 2 0 v h2]
  norm_num

/-- C6 witness: a concrete operation failing twice then returning 42. -/
theorem with_retry_two_failures_then_success_witness :
    withRetry (fun n => if n < 2 then .error "boom" else .ok 42) 2 =
      ((.ok 42 : Except String ℕ), [1, 2]) :=
  with_retry_two_failures_then_success
    (fun n => if n < 2 then .error "boom" else .ok 42)
    "boom" "boom" 42 rfl rfl rfl

/-- C7 counterexample: when every attempt fails, `_with_retry` re-raises the
last error itself — here the propagated error is exactly the bare `"boom"`,
not a value annotated with the operation name and attempt count (the
annotation exists only in the log message, orchestrator.py line 390). -/
theorem with_retry_bare_error_cex :
    (withRetry (fun _ => (.error "boom" : Except String ℕ)) 2).1 =
      .error "boom" := rfl

lemma retryFrom_all_fail {E A : Type} (op : ℕ → Except E A) (e : E) :
    ∀ (r a : ℕ), op (a + r) = .error e →
      (∀ k, a ≤ k → k < a + r → ∃ e', op k = .error e') →
      retryFrom op a r =
        (.error e, (List.range' a r).map (fun k => 2 ^ k)) := by
  intro r
  induction r with
  | zero =>
    intro a hlast _
    rw [retryFrom_err_last op a e (by simpa using hlast)]
    simp
  | succ m ih =>
    intro a hlast hfail
    obtain ⟨e', he'⟩ := hfail a le_rfl (by omega)
    rw [retryFrom_err_step op a m e' he',
      ih (a + 1) (by rw [← hlast]; ring_nf)
        (fun k hk1 hk2 => hfail k (by omega) (by omega))]
    rw [List.range'_succ]
    simp

/-- C7 amended: when the operation fails on every one of the
`max_retries + 1` attempts, `_with_retry` re-raises the bare last error
(the final attempt's error, unannotated), after waits `2^0 .. 2^(m-1)`;
the operation name and attempt count appear only in the log. -/
theorem with_retry_exhaustion_raises_bare_last {E A : Type}
    (op : ℕ → Except E A) (maxR : ℕ) (e : E)
    (hlast : op maxR = .error e)
    (hfail : ∀ k, k < maxR → ∃ e', op k = .error e') :
    withRetry op maxR =
      (.error e, (List.range' 0 maxR).map (fun k => 2 ^ k)) := by
  unfold withRetry
  exact retryFrom_all_fail op e maxR 0 (by simpa using hlast)
    (fun k _ hk2 => hfail k (by omega))

/-- C7 amended witness: three failing attempts with `max_retries = 2`. -/
theorem with_retry_exhaustion_raises_bare_last_witness :
    withRetry (fun n => (.error (toString n) : Except String ℕ)) 2 =
      (.error "2", [1, 2]) := by
  have h := with_retry_exhaustion_raises_bare_last
    (fun n => (.error (toString n) : Except String ℕ)) 2 "2" rfl
    (fun k _ => ⟨toString k, rfl⟩)
  simpa using h

/-- C10: on a single input clip `_process_ffmpeg_sync` returns the bare
output-path string instead of a `(path, durations)` pair, so the
orchestrator's `stitch_result[0]` / `stitch_result[1]` yield the first and
second characters of the path rather than the path and a durations list
(contradicting the caller's own comment "Result is now (path, durations)",
orchestrator.py line 229). -/
theorem stitch_single_clip_shape :
    processFfmpegSync [some 7] "outputs/video_j.mp4" =
        .single "outputs/video_j.mp4" ∧
      stitchIndex (processFfmpegSync [some 7] "outputs/video_j.mp4") 0 =
        some (.chr 'o') ∧
      stitchIndex (processFfmpegSync [some 7] "outputs/video_j.mp4") 1 =
        some (.chr 'u') := by
  exact ⟨rfl, rfl, rfl⟩

/-! ## Caption burner: caption windows
Embeds `burn_captions` (src/pipeline/caption_burner.py, lines 61-72) and the
timing loop of `_build_drawtext_filter` (lines 124-132). -/

/-- The `elif/else` fallback of lines 67-72: even division by scene count
when the measured total is positive, otherwise the fixed default. -/
def fallbackSceneDurations (total : ℚ) (nScenes : ℕ) (scene_duration : ℚ) :
    List ℚ × ℚ :=
  if 0 < total ∧ 0 < nScenes then
    (List.replicate nScenes (total / nScenes), total / nScenes)
  else
    (List.replicate nScenes scene_duration, scene_duration)

/-- Lines 61-72 of `burn_captions`: the `(scene_durations, scene_duration)`
pair passed on to `_build_drawtext_filter`.  The Python guard
`if scene_durations and len(scene_durations) == len(scenes)` requires a
non-`None`, non-empty list of the right length. -/
def effectiveSceneDurations (provided : Option (List ℚ)) (total : ℚ)
    (nScenes : ℕ) (scene_duration : ℚ) : List ℚ × ℚ :=
  match provided with
  | some l =>
    if l ≠ [] ∧ l.length = nScenes then (l, scene_duration)
    else fallbackSceneDurations total nScenes scene_duration
  | none => fallbackSceneDurations total nScenes scene_duration

/-- The timing loop of `_build_drawtext_filter`: scene `i` gets the window
`[current, current + duration)` where
`duration = scene_durations[i] if (scene_durations and i < len(scene_durations)) else scene_duration`
— which is exactly `scene_durations.getD i scene_duration`.  (The window is
computed for every scene; blank dialogues merely emit no overlay but still
advance `current_time`.) -/
def sceneWindowsGo (scene_duration : ℚ) (scene_durations : List ℚ) :
    ℕ → ℕ → ℚ → List (ℚ × ℚ)
  | 0, _, _ => []
  | rem + 1, i, current =>
    let d := scene_durations.getD i scene_duration
    (current, current + d) ::
      sceneWindowsGo scene_duration scene_durations rem (i + 1) (current + d)

def sceneWindows (nScenes : ℕ) (scene_duration : ℚ)
    (scene_durations : List ℚ) : List (ℚ × ℚ) :=
  sceneWindowsGo scene_duration scene_durations nScenes 0 0

/-- The caption windows produced by one `burn_captions` call: the duration
selection of lines 61-72 followed by the timing loop. -/
def burnCaptionWindows (provided : Option (List ℚ)) (total : ℚ)
    (nScenes : ℕ) (scene_duration : ℚ) : List (ℚ × ℚ) :=
  let eff := effectiveSceneDurations provided total nScenes scene_duration
  sceneWindows nScenes eff.2 eff.1

lemma sceneWindowsGo_replicate (d sd : ℚ) (n : ℕ) :
    ∀ (rem i : ℕ) (c : ℚ), i + rem ≤ n →
      sceneWindowsGo sd (List.replicate n d) rem i c =
        (List.range rem).map
          (fun (k : ℕ) => (c + (k : ℚ) * d, c + ((k : ℚ) + 1) * d)) := by
  intro rem
  induction rem with
  | zero => intro i c _; simp [sceneWindowsGo]
  | succ m ih =>
    intro i c h
    have hgetD : (List.replicate n d).getD i sd = d := by
      rw [List.getD_eq_getElem _ _ (by simp; omega)]
      simp
    simp only [sceneWindowsGo, hgetD, List.range_succ_eq_map, List.map_cons,
      List.map_map, ih (i + 1) (c + d) (by omega)]
    congr 1
    · norm_num
    · apply List.map_congr_left
      intro k _
      simp only [Function.comp_apply, Prod.mk.injEq]
      push_cast
      refine ⟨by ring, by ring⟩

/-! ## Caption burner: drawtext escaping
`_escape_text` (src/pipeline/caption_burner.py, lines 179-182):

    res = text.replace("\x5c", "\x5c\x5c").replace("'", "'\x5c''")
              .replace(":", "\x5c:").replace(",", "\x5c,")

Python strings are modelled as `List Char`; `str.replace` with a
single-character pattern replaces every occurrence, which is the
character-wise map below. -/

def pyReplaceChar (c : Char) (r : List Char) : List Char → List Char
  | [] => []
  | x :: xs => (if x = c then r else [x]) ++ pyReplaceChar c r xs

def escapeText (s : List Char) : List Char :=
  pyReplaceChar ',' ['\\', ','] <|
    pyReplaceChar ':' ['\\', ':'] <|
      pyReplaceChar '\'' ['\'', '\\', '\'', '\''] <|
        pyReplaceChar '\\' ['\\', '\\'] s

/-- The per-character code implemented by the four chained replaces: the
later replaces never touch characters introduced by the earlier ones
(the inserted backslashes are adjacent only to `\`, `'`, `:`, `,`). -/
def escChar (c : Char) : List Char :=
  if c = '\\' then ['\\', '\\']
  else if c = '\'' then ['\'', '\\', '\'', '\'']
  else if c = ':' then ['\\', ':']
  else if c = ',' then ['\\', ',']
  else [c]

/-- Modelled from the spec: the overlay renderer's (FFmpeg drawtext)
unescaping of the sequences emitted by `_escape_text` — the renderer itself
is an external tool, not part of `src/`.  Greedy left-to-right decode:
`'\''` renders as a single quote (quote close, escaped quote, quote
reopen), `\\` as a backslash, `\:` as a colon, `\,` as a comma, and any
other character as itself. -/
def unescapeText : List Char → List Char
  | '\'' :: '\\' :: '\'' :: '\'' :: r => '\'' :: unescapeText r
  | '\\' :: '\\' :: r => '\\' :: unescapeText r
  | '\\' :: ':' :: r => ':' :: unescapeText r
  | '\\' :: ',' :: r => ',' :: unescapeText r
  | c :: r => c :: unescapeText r
  | [] => []

lemma pyReplaceChar_append (c : Char) (r : List Char) :
    ∀ (l₁ l₂ : List Char),
      pyReplaceChar c r (l₁ ++ l₂) =
        pyReplaceChar c r l₁ ++ pyReplaceChar c r l₂ := by
  intro l₁
  induction l₁ with
  | nil => intro l₂; simp [pyReplaceChar]
  | cons x xs ih => intro l₂; simp [pyReplaceChar, ih]

lemma escapeText_cons (x : Char) (t : List Char) :
    escapeText (x :: t) = escChar x ++ escapeText t := by
  show escapeText ([x] ++ t) = _
  unfold escapeText
  rw [pyReplaceChar_append, pyReplaceChar_append, pyReplaceChar_append,
    pyReplaceChar_append]
  congr 1
  by_cases h1 : x = '\\'
  · subst h1; rfl
  by_cases h2 : x = '\''
  · subst h2; rfl
  by_cases h3 : x = ':'
  · subst h3; rfl
  by_cases h4 : x = ','
  · subst h4; simp [pyReplaceChar, escChar, h1, h2, h3]
  · simp [pyReplaceChar, escChar, h1, h2, h3, h4]

lemma effectiveSceneDurations_none (total : ℚ) (n : ℕ) (sd : ℚ)
    (ht : 0 < total) (hn : 0 < n) :
    effectiveSceneDurations none total n sd =
      (List.replicate n (total / n), total / n) := by
  simp [effectiveSceneDurations, fallbackSceneDurations, ht, hn]

/-- C5: with no explicit per-scene durations and a positive measured total,
the caption engine divides the total evenly: scene `k` (0-based) gets the
window `[k·(total/n), (k+1)·(total/n))`; consecutive windows are adjacent
(no gaps or overlaps), the first starts at `0`, the last ends at `total`,
and for 3 scenes over a 21-second video the windows are
`[0,7), [7,14), [14,21)`. -/
theorem caption_windows_even_partition (total : ℚ) (n : ℕ) (sd : ℚ)
    (htotal : 0 < total) (hn : 0 < n) :
    burnCaptionWindows none total n sd =
      (List.range n).map
        (fun (k : ℕ) => ((k : ℚ) * (total / n), ((k : ℚ) + 1) * (total / n))) ∧
    (∀ i : ℕ, i + 1 < n →
      ((burnCaptionWindows none total n sd).getD i (0, 0)).2 =
        ((burnCaptionWindows none total n sd).getD (i + 1) (0, 0)).1) ∧
    ((burnCaptionWindows none total n sd).getD 0 (0, 0)).1 = 0 ∧
    ((burnCaptionWindows none total n sd).getD (n - 1) (0, 0)).2 = total ∧
    burnCaptionWindows none 21 3 6 = [(0, 7), (7, 14), (14, 21)] := by
  have hmain : burnCaptionWindows none total n sd =
      (List.range n).map
        (fun (k : ℕ) =>
          ((k : ℚ) * (total / n), ((k : ℚ) + 1) * (total / n))) := by
    unfold burnCaptionWindows
    rw [effectiveSceneDurations_none total n sd htotal hn]
    unfold sceneWindows
    rw [sceneWindowsGo_replicate (total / n) (total / n) n n 0 0 (by omega)]
    simp
  refine ⟨hmain, ?_, ?_, ?_, ?_⟩
  · intro i hi
    rw [hmain,
      List.getD_eq_getElem _ _ (by simp; omega),
      List.getD_eq_getElem _ _ (by simp; omega)]
    simp only [List.getElem_map, List.getElem_range]
    push_cast
    ring
  · rw [hmain, List.getD_eq_getElem _ _ (by simp; omega)]
    simp
  · rw [hmain, List.getD_eq_getElem _ _ (by simp; omega)]
    simp only [List.getElem_map, List.getElem_range]
    have hcast : ((n - 1 : ℕ) : ℚ) + 1 = (n : ℚ) := by
      rw [Nat.cast_sub (by omega : 1 ≤ n)]
      ring
    rw [hcast]
    have hn' : (n : ℚ) ≠ 0 := Nat.cast_ne_zero.mpr (by omega)
    field_simp
  · norm_num [burnCaptionWindows, effectiveSceneDurations,
      fallbackSceneDurations, sceneWindows, sceneWindowsGo, List.replicate,
      List.getD]

/-- C5 witness: 3 scenes over a 21-second video. -/
theorem caption_windows_even_partition_witness :
    (0 : ℚ) < 21 ∧ 0 < 3 ∧
      burnCaptionWindows none 21 3 6 =
        (List.range 3).map
          (fun (k : ℕ) => ((k : ℚ) * (21 / 3), ((k : ℚ) + 1) * (21 / 3))) :=
  ⟨by norm_num, by norm_num,
    (caption_windows_even_partition 21 3 6 (by norm_num) (by norm_num)).1⟩

lemma unescapeText_quote (r : List Char) :
    unescapeText ('\'' :: '\\' :: '\'' :: '\'' :: r) =
      '\'' :: unescapeText r := rfl

lemma unescapeText_backslash (r : List Char) :
    unescapeText ('\\' :: '\\' :: r) = '\\' :: unescapeText r := rfl

lemma unescapeText_colon (r : List Char) :
    unescapeText ('\\' :: ':' :: r) = ':' :: unescapeText r := rfl

lemma unescapeText_comma (r : List Char) :
    unescapeText ('\\' :: ',' :: r) = ',' :: unescapeText r := rfl

lemma unescapeText_other (c : Char) (r : List Char) (h1 : c ≠ '\'')
    (h2 : c ≠ '\\') : unescapeText (c :: r) = c :: unescapeText r := by
  rw [unescapeText.eq_def]
  split <;> simp_all

/-- C8: `_escape_text` is lossless — rendering the escaped text under the
overlay renderer's unescaping rules reproduces the original string (for
every string, in particular those containing colon, single quote or
backslash); hence escaping is injective and invertible. -/
theorem escape_text_roundtrip :
    ∀ s : List Char, unescapeText (escapeText s) = s := by
  intro s
  induction s with
  | nil => rfl
  | cons c t ih =>
    rw [escapeText_cons]
    by_cases h1 : c = '\\'
    · subst h1
      rw [show escChar '\\' = ['\\', '\\'] from rfl]
      simp only [List.cons_append, List.nil_append]
      rw [unescapeText_backslash, ih]
    by_cases h2 : c = '\''
    · subst h2
      rw [show escChar '\'' = ['\'', '\\', '\'', '\''] from rfl]
      simp only [List.cons_append, List.nil_append]
      rw [unescapeText_quote, ih]
    by_cases h3 : c = ':'
    · subst h3
      rw [show escChar ':' = ['\\', ':'] from rfl]
      simp only [List.cons_append, List.nil_append]
      rw [unescapeText_colon, ih]
    by_cases h4 : c = ','
    · subst h4
      rw [show escChar ',' = ['\\', ','] from rfl]
      simp only [List.cons_append, List.nil_append]
      rw [unescapeText_comma, ih]
    · rw [show escChar c = [c] by simp [escChar, h1, h2, h3, h4]]
      simp only [List.cons_append, List.nil_append]
      rw [unescapeText_other c _ h2 h1, ih]

/-! ## Job manager
Embeds `update_job` (src/services/job_manager.py, lines 50-79) over the
`JobState` pydantic model (src/models/schemas.py).

Python attribute values are dynamic, and pydantic does not validate plain
assignments, so field contents are modelled by the dynamic value type
`PyVal` (with `vNone` for Python `None`).  The four explicitly named
keyword parameters of `update_job` default to `None`; all other keyword
arguments land in `**kwargs` and are applied through the
`hasattr`/`setattr` loop of lines 74-76. -/

inductive JobStatus where
  | pending | generating_script | generating_images | generating_videos
  | assembling_video | adding_captions | complete | error
  deriving DecidableEq

inductive AspectRatio where
  | landscape | portrait | square
  deriving DecidableEq

structure Scene where
  scene_number : ℤ
  visual_description : String
  dialogue : String
  image_url : Option String
  video_url : Option String
  last_frame_url : Option String
  cloudinary_public_id : Option String
  deriving DecidableEq

structure VideoScript where
  character_description : String
  scenes : List Scene
  visual_style : Option String
  background_theme : Option String
  deriving DecidableEq

inductive PyVal where
  | vNone
  | vStr (s : String)
  | vInt (n : ℤ)
  | vStatus (st : JobStatus)
  | vAspect (a : AspectRatio)
  | vScript (v : VideoScript)
  | vStrList (l : List String)
  | vRatList (l : List ℚ)
  | vTime (t : ℕ)
  deriving DecidableEq

/-- The fields declared on the `JobState` pydantic model. -/
structure JobState where
  job_id : PyVal
  status : PyVal
  progress_percent : PyVal
  current_step : PyVal
  created_at : PyVal
  updated_at : PyVal
  prompt : PyVal
  scene_count : PyVal
  aspect_ratio : PyVal
  script : PyVal
  reference_image_url : PyVal
  scene_videos : PyVal
  video_url : PyVal
  duration_seconds : PyVal
  error_message : PyVal
  retry_count : PyVal
  deriving DecidableEq

/-- The declared field names of `JobState`, as an enum used to index the
record. -/
inductive JobField where
  | job_id | status | progress_percent | current_step | created_at
  | updated_at | prompt | scene_count | aspect_ratio | script
  | reference_image_url | scene_videos | video_url | duration_seconds
  | error_message | retry_count
  deriving DecidableEq

def JobField.name : JobField -> String
  | .job_id => "job_id"
  | .status => "status"
  | .progress_percent => "progress_percent"
  | .current_step => "current_step"
  | .created_at => "created_at"
  | .updated_at => "updated_at"
  | .prompt => "prompt"
  | .scene_count => "scene_count"
  | .aspect_ratio => "aspect_ratio"
  | .script => "script"
  | .reference_image_url => "reference_image_url"
  | .scene_videos => "scene_videos"
  | .video_url => "video_url"
  | .duration_seconds => "duration_seconds"
  | .error_message => "error_message"
  | .retry_count => "retry_count"

def allJobFields : List JobField :=
  [.job_id, .status, .progress_percent, .current_step, .created_at,
    .updated_at, .prompt, .scene_count, .aspect_ratio, .script,
    .reference_image_url, .scene_videos, .video_url, .duration_seconds,
    .error_message, .retry_count]

/-- Which declared field (if any) a Python attribute name denotes. -/
def parseJobField (name : String) : Option JobField :=
  allJobFields.find? (fun f => f.name = name)

def setField (j : JobState) : JobField -> PyVal -> JobState
  | .job_id, v => { j with job_id := v }
  | .status, v => { j with status := v }
  | .progress_percent, v => { j with progress_percent := v }
  | .current_step, v => { j with current_step := v }
  | .created_at, v => { j with created_at := v }
  | .updated_at, v => { j with updated_at := v }
  | .prompt, v => { j with prompt := v }
  | .scene_count, v => { j with scene_count := v }
  | .aspect_ratio, v => { j with aspect_ratio := v }
  | .script, v => { j with script := v }
  | .reference_image_url, v => { j with reference_image_url := v }
  | .scene_videos, v => { j with scene_videos := v }
  | .video_url, v => { j with video_url := v }
  | .duration_seconds, v => { j with duration_seconds := v }
  | .error_message, v => { j with error_message := v }
  | .retry_count, v => { j with retry_count := v }

def getField (j : JobState) : JobField -> PyVal
  | .job_id => j.job_id
  | .status => j.status
  | .progress_percent => j.progress_percent
  | .current_step => j.current_step
  | .created_at => j.created_at
  | .updated_at => j.updated_at
  | .prompt => j.prompt
  | .scene_count => j.scene_count
  | .aspect_ratio => j.aspect_ratio
  | .script => j.script
  | .reference_image_url => j.reference_image_url
  | .scene_videos => j.scene_videos
  | .video_url => j.video_url
  | .duration_seconds => j.duration_seconds
  | .error_message => j.error_message
  | .retry_count => j.retry_count

/-- `hasattr(job, key)`: true exactly for declared field names (pydantic
raises `AttributeError` for anything else). -/
def hasattrJob (name : String) : Bool :=
  (parseJobField name).isSome

/-- `setattr(job, name, value)` (no-op on undeclared names; `update_job`
only reaches it under the `hasattr` guard). -/
def setattrJob (j : JobState) (name : String) (v : PyVal) : JobState :=
  match parseJobField name with
  | some f => setField j f v
  | none => j

/-- `getattr(job, name)` on declared fields (`vNone` on undeclared names,
used only to state frame properties). -/
def getattrJob (j : JobState) (name : String) : PyVal :=
  match parseJobField name with
  | some f => getField j f
  | none => .vNone

/-- `update_job` (lines 50-79) applied to an existing job record: the four
`is not None` guarded named parameters, then the `hasattr`-guarded kwargs
loop, then `updated_at = datetime.utcnow()`. -/
def updateJob (job : JobState) (status progress_percent current_step
    error_message : PyVal) (kwargs : List (String × PyVal)) (now : PyVal) :
    JobState :=
  let j1 := if status ≠ .vNone then { job with status := status } else job
  let j2 := if progress_percent ≠ .vNone then
    { j1 with progress_percent := progress_percent } else j1
  let j3 := if current_step ≠ .vNone then
    { j2 with current_step := current_step } else j2
  let j4 := if error_message ≠ .vNone then
    { j3 with error_message := error_message } else j3
  let j5 := kwargs.foldl
    (fun j kv => if hasattrJob kv.1 then setattrJob j kv.1 kv.2 else j) j4
  { j5 with updated_at := now }

lemma parseJobField_name {name : String} {f : JobField}
    (h : parseJobField name = some f) : name = f.name := by
  unfold parseJobField at h
  have := List.find?_some h
  exact (of_decide_eq_true this).symm

lemma getField_setField_ne (j : JobState) (v : PyVal) {f f' : JobField}
    (h : f ≠ f') : getField (setField j f v) f' = getField j f' := by
  cases f <;> cases f' <;> simp_all [getField, setField]

lemma getattrJob_setattr_ne (j : JobState) (v : PyVal) {name name' : String}
    (h : name ≠ name') :
    getattrJob (setattrJob j name v) name' = getattrJob j name' := by
  unfold setattrJob getattrJob
  cases hp : parseJobField name with
  | none => rfl
  | some f =>
    cases hp' : parseJobField name' with
    | none => rfl
    | some f' =>
      apply getField_setField_ne
      intro hf
      subst hf
      exact h ((parseJobField_name hp).trans (parseJobField_name hp').symm)

lemma getattrJob_set_field (j : JobState) (v : PyVal) (f : JobField)
    {name : String} (h : name ≠ f.name) :
    getattrJob (setField j f v) name = getattrJob j name := by
  unfold getattrJob
  cases hp : parseJobField name with
  | none => rfl
  | some f' =>
    apply getField_setField_ne
    intro hf
    subst hf
    exact h (parseJobField_name hp)

lemma applyKwargs_getattr (name : String) (kw : List (String × PyVal)) :
    ∀ j : JobState, (∀ v, (name, v) ∉ kw) →
      getattrJob
        (kw.foldl
          (fun j kv => if hasattrJob kv.1 then setattrJob j kv.1 kv.2 else j)
          j) name = getattrJob j name := by
  induction kw with
  | nil => intro j _; rfl
  | cons p rest ih =>
    intro j h
    simp only [List.foldl_cons]
    rw [ih _ (fun v hv => h v (List.mem_cons_of_mem _ hv))]
    by_cases hh : hasattrJob p.1
    · simp only [hh, if_true]
      apply getattrJob_setattr_ne
      intro heq
      have hp : p = (name, p.2) := by
        rw [← heq]
      exact h p.2 (hp ▸ List.mem_cons_self p rest)
    · simp [hh]

lemma applyKwargs_unknown (kw : List (String × PyVal)) :
    ∀ j : JobState, (∀ p ∈ kw, hasattrJob p.1 = false) →
      kw.foldl
        (fun j kv => if hasattrJob kv.1 then setattrJob j kv.1 kv.2 else j)
        j = j := by
  induction kw with
  | nil => intro j _; rfl
  | cons p rest ih =>
    intro j h
    simp only [List.foldl_cons, h p (List.mem_cons_self p rest),
      Bool.false_eq_true, if_false]
    exact ih j (fun q hq => h q (List.mem_cons_of_mem _ hq))

/-- C9: an `update_job` call leaves every field it does not supply
unchanged (besides `updated_at`), and keyword arguments whose name is not a
declared `JobState` field are simply ignored — supplying only such names
changes nothing but `updated_at`, and no error is raised. -/
theorem update_job_frame (job : JobState) (st pr cs em : PyVal)
    (kw : List (String × PyVal)) (now : PyVal) :
    (∀ name : String, name ≠ "updated_at" →
      (name = "status" → st = .vNone) →
      (name = "progress_percent" → pr = .vNone) →
      (name = "current_step" → cs = .vNone) →
      (name = "error_message" → em = .vNone) →
      (∀ v, (name, v) ∉ kw) →
      getattrJob (updateJob job st pr cs em kw now) name =
        getattrJob job name) ∧
    ((∀ p ∈ kw, hasattrJob p.1 = false) →
      updateJob job .vNone .vNone .vNone .vNone kw now =
        { job with updated_at := now }) := by
  constructor
  · intro name hupd hst hpr hcs hem hkw
    unfold updateJob
    rw [show ∀ j : JobState, { j with updated_at := now } =
        setField j .updated_at now from fun _ => rfl,
      getattrJob_set_field _ now .updated_at hupd,
      applyKwargs_getattr name kw _ hkw]
    have step4 : ∀ j : JobState,
        getattrJob (if em ≠ PyVal.vNone then { j with error_message := em }
          else j) name = getattrJob j name := by
      intro j
      split_ifs with h
      · exact getattrJob_set_field j em .error_message (fun hn => h (hem hn))
      · rfl
    have step3 : ∀ j : JobState,
        getattrJob (if cs ≠ PyVal.vNone then { j with current_step := cs }
          else j) name = getattrJob j name := by
      intro j
      split_ifs with h
      · exact getattrJob_set_field j cs .current_step (fun hn => h (hcs hn))
      · rfl
    have step2 : ∀ j : JobState,
        getattrJob (if pr ≠ PyVal.vNone then
          { j with progress_percent := pr } else j) name =
          getattrJob j name := by
      intro j
      split_ifs with h
      · exact getattrJob_set_field j pr .progress_percent
          (fun hn => h (hpr hn))
      · rfl
    have step1 : ∀ j : JobState,
        getattrJob (if st ≠ PyVal.vNone then { j with status := st } else j)
          name = getattrJob j name := by
      intro j
      split_ifs with h
      · exact getattrJob_set_field j st .status (fun hn => h (hst hn))
      · rfl
    rw [step4, step3, step2, step1]
  · intro hunk
    unfold updateJob
    simp only [ne_eq, not_true_eq_false, if_false]
    rw [applyKwargs_unknown kw _ hunk]

/-- A concrete freshly created job record, as `create_job` builds it. -/
def exampleJob : JobState :=
  ⟨.vStr "vid_1", .vStatus .pending, .vInt 0, .vStr "init", .vTime 0,
    .vTime 0, .vStr "cats", .vInt 5, .vAspect .landscape, .vNone, .vNone,
    .vStrList [], .vNone, .vNone, .vNone, .vInt 0⟩

/-- Keyword arguments whose names are not `JobState` fields — including the
`scene_durations` name the orchestrator actually passes. -/
def exampleKwargs : List (String × PyVal) :=
  [("scene_durations", .vRatList [7, 7, 7]), ("bogus", .vInt 1)]

/-- C9 witness: updating only `progress_percent` plus unknown kwargs leaves
`script` untouched; supplying only unknown names changes nothing but
`updated_at`. -/
theorem update_job_frame_witness :
    getattrJob
        (updateJob exampleJob .vNone (.vInt 85) .vNone .vNone exampleKwargs
          (.vTime 9)) "script" =
      getattrJob exampleJob "script" ∧
    updateJob exampleJob .vNone .vNone .vNone .vNone exampleKwargs
        (.vTime 9) =
      { exampleJob with updated_at := .vTime 9 } :=
  ⟨(update_job_frame exampleJob .vNone (.vInt 85) .vNone .vNone
      exampleKwargs (.vTime 9)).1 "script" (by decide)
      (fun h => absurd h (by decide)) (fun h => absurd h (by decide))
      (fun h => absurd h (by decide)) (fun h => absurd h (by decide))
      (by intro v hv; simp [exampleKwargs] at hv),
    (update_job_frame exampleJob .vNone .vNone .vNone .vNone exampleKwargs
      (.vTime 9)).2 (by decide)⟩

/-! ## Provider poll loops
Embeds `_poll_for_result` of src/pipeline/video_generator.py (lines
207-350) and src/pipeline/image_generator.py (lines 120-242).

A parsed provider status response (`response.json()`) is modelled by
`JVal`.  The consulted numeric fields (`code`, `successFlag`) are integers
in the kie.ai protocol; JSON booleans do not occur in the consulted fields
and are omitted. -/

inductive JVal where
  | null
  | str (s : String)
  | num (n : ℤ)
  | arr (elems : List JVal)
  | obj (fields : List (String × JVal))

def JVal.lookup : List (String × JVal) → String → Option JVal
  | [], _ => none
  | (k, v) :: rest, key => if k = key then some v else JVal.lookup rest key

def JVal.isDict : JVal → Bool
  | .obj _ => true
  | _ => false

def JVal.isNull : JVal → Bool
  | .null => true
  | _ => false

/-- Python `d.get(key)`: the stored value, or `None` when absent.  A stored
JSON `null` and an absent key are indistinguishable, as in Python. -/
def JVal.get : JVal → String → JVal
  | .obj fs, key => (JVal.lookup fs key).getD .null
  | _, _ => .null

/-- Python `d.get(key, default)` (only invoked on dicts in the embedded
code paths). -/
def JVal.getD : JVal → String → JVal → JVal
  | .obj fs, key, dflt => (JVal.lookup fs key).getD dflt
  | _, _, dflt => dflt

/-- Python truthiness of a JSON value. -/
def JVal.truthy : JVal → Bool
  | .null => false
  | .str s => !s.isEmpty
  | .num n => n != 0
  | .arr l => !l.isEmpty
  | .obj fs => !fs.isEmpty

/-- Python `v == k` for an integer literal `k`. -/
def JVal.isNum (v : JVal) (k : ℤ) : Bool :=
  match v with
  | .num n => n == k
  | _ => false

/-- Python `v == s` for a string literal `s`. -/
def JVal.isStr (v : JVal) (s : String) : Bool :=
  match v with
  | .str t => t == s
  | _ => false

/-- Python `a or b`. -/
def JVal.pyOr (a b : JVal) : JVal :=
  if a.truthy then a else b

/-- A fatal signal raised inside the poll loop's `try` body. -/
inductive PollFailure where
  | apiError (code msg : JVal)
  | taskFailed (detail : JVal)
  | noResultUrl (response : JVal)
  | pyError

/-- Outcome of the `try` body on one parsed status response. -/
inductive PollStep where
  | ret (url : JVal)
  | raiseCaught (e : PollFailure)
  | pending

/-- video_generator lines 268-311: compute `video_url` after a success
flag.  `.error ()` models a Python `TypeError`/`KeyError` on exotic shapes
(`len()` of a number, subscripting a dict) — the blanket handler then
sleeps and polls again, like any other exception. -/
def videoExtract (data : JVal) : Except Unit JVal := do
  let u1 : JVal ←
    if data.isDict then
      let inner := data.getD "data" (.obj [])
      if inner.isDict then
        let respD := inner.getD "response" (.obj [])
        if respD.isDict then
          let urls := respD.getD "resultUrls" (.arr [])
          if urls.truthy then
            match urls with
            | .arr (x :: _) => pure x
            | .str s => pure (.str (s.take 1))
            | .num _ => .error ()
            | .obj _ => .error ()
            | _ => pure .null
          else pure .null
        else pure .null
      else pure .null
    else pure .null
  let u2 : JVal :=
    if !u1.truthy then
      let output :=
        if data.isDict then
          let inner := data.getD "data" (.obj [])
          let o1 := if inner.isDict then inner.get "output" else .null
          if !o1.truthy then data.get "output" else o1
        else .null
      match output with
      | .str s => if s.startsWith "http" then .str s else .null
      | .obj _ =>
        ((output.get "video_url").pyOr (output.get "url")).pyOr
          (output.get "video")
      | .arr (first :: _) =>
        match first with
        | .str s => if s.startsWith "http" then .str s else .null
        | .obj _ => (first.get "url").pyOr (first.get "video_url")
        | _ => .null
      | _ => .null
    else u1
  let u3 : JVal :=
    if !u2.truthy && data.isDict then
      let inner := data.getD "data" (.obj [])
      let va :=
        if inner.isDict then
          ((inner.get "videoUrl").pyOr (inner.get "video_url")).pyOr
            (inner.get "url")
        else u2
      if !va.truthy then (data.get "videoUrl").pyOr (data.get "video_url")
      else va
    else u2
  pure u3

/-- One attempt of video_generator `_poll_for_result` (lines 214-327): the
classification the `try` body performs on the parsed response.  Note that
every `raiseCaught` outcome is subsequently swallowed by the
`except Exception` handler of lines 345-348. -/
def videoClassify (data : JVal) : PollStep :=
  if data.isDict then
    let apiCode := data.get "code"
    if !apiCode.isNull && !apiCode.isNum 200 then
      .raiseCaught (.apiError apiCode (data.getD "msg" (.str "")))
    else
      let inner := data.getD "data" (.obj [])
      let isSuccess := inner.isDict && (inner.get "successFlag").isNum 1
      let isFailed := inner.isDict &&
        (!(inner.get "errorCode").isNull ||
          (!(inner.get "errorMessage").isNull &&
            !(inner.get "errorMessage").isStr ""))
      if isSuccess then
        match videoExtract data with
        | .error () => .raiseCaught .pyError
        | .ok u =>
          if u.truthy then .ret u else .raiseCaught (.noResultUrl data)
      else if isFailed then
        .raiseCaught (.taskFailed
          (((inner.get "errorMessage").pyOr (inner.get "errorCode")).pyOr
            (.str "Unknown error")))
      else .pending
  else .pending

/-- Python `str.lower()`, modelled over ASCII (the provider state strings
are plain ASCII). -/
def pyLowerChar (c : Char) : Char :=
  if 'A' ≤ c ∧ c ≤ 'Z' then Char.ofNat (c.toNat + 32) else c

def pyLower (s : String) : String :=
  .mk (s.data.map pyLowerChar)

/-- image_generator lines 156-161: the lower-cased state string, through
the `or`-chain of `.get(..., "").lower()` calls.  `.error ()` models the
`AttributeError` raised when `data` or `data["data"]` is not a dict or a
consulted state value is not a string. -/
def imageState (data : JVal) : Except Unit String :=
  if data.isDict then
    let inner := data.getD "data" (.obj [])
    if inner.isDict then
      match inner.getD "state" (.str "") with
      | .str s1 =>
        if pyLower s1 ≠ "" then pure (pyLower s1)
        else
          match data.getD "state" (.str "") with
          | .str s2 =>
            if pyLower s2 ≠ "" then pure (pyLower s2)
            else
              match data.getD "status" (.str "") with
              | .str s3 => pure (pyLower s3)
              | _ => .error ()
          | _ => .error ()
      | _ => .error ()
    else .error ()
  else .error ()

/-- image_generator lines 163-206: result extraction after
`state == "success"` (`data` and `data["data"]` are dicts here, since the
state parse succeeded).  `json.loads` is modelled by the parameter `jp`
(`none` = `json.JSONDecodeError`, which the code logs and falls through
on).  `.ok (some u)` is a `return u`; `.ok none` reaches the final
`raise Exception("No image URL ...")`. -/
def imageExtract (jp : String → Option JVal) (data : JVal) :
    Except Unit (Option JVal) := do
  let inner := data.getD "data" (.obj [])
  let rjs := inner.get "resultJson"
  let step1 : Option JVal ←
    if rjs.truthy then
      match rjs with
      | .str s =>
        match jp s with
        | some r =>
          if r.isDict then
            let urls := r.getD "resultUrls" (.arr [])
            if urls.truthy then
              match urls with
              | .arr (x :: _) => pure (some x)
              | .str t => pure (some (.str (t.take 1)))
              | .num _ => .error ()
              | .obj _ => .error ()
              | _ => pure none
            else pure none
          else .error ()
        | none => pure none
      | _ => .error ()
    else pure none
  match step1 with
  | some u => pure (some u)
  | none =>
    let output := (inner.get "output").pyOr (data.get "output")
    let u1 : JVal :=
      match output with
      | .str s => if s.startsWith "http" then .str s else .null
      | .obj _ =>
        ((output.get "url").pyOr (output.get "image")).pyOr
          (output.get "image_url")
      | .arr (first :: _) =>
        match first with
        | .str s => if s.startsWith "http" then .str s else .null
        | .obj _ => (first.get "url").pyOr (first.get "image")
        | _ => .null
      | _ => .null
    let u2 :=
      if !u1.truthy then
        ((((inner.get "imageUrl").pyOr (inner.get "image_url")).pyOr
          (inner.get "url")).pyOr (data.get "imageUrl")).pyOr
          (data.get "image_url")
      else u1
    if u2.truthy then pure (some u2) else pure none

/-- One attempt of image_generator `_poll_for_result` (lines 127-223):
known-pending states and unknown states both sleep (lines 217-223), and
every `raiseCaught` outcome is swallowed by the `except Exception` handler
of lines 238-240. -/
def imageClassify (jp : String → Option JVal) (data : JVal) : PollStep :=
  if data.isDict && !(data.get "code").isNull &&
      !(data.get "code").isNum 200 then
    .raiseCaught (.apiError (data.get "code") (data.getD "msg" (.str "")))
  else
    match imageState data with
    | .error () => .raiseCaught .pyError
    | .ok st =>
      if st = "success" then
        match imageExtract jp data with
        | .error () => .raiseCaught .pyError
        | .ok (some u) => .ret u
        | .ok none => .raiseCaught (.noResultUrl data)
      else if st = "failed" ∨ st = "error" then
        .raiseCaught (.taskFailed
          (((((data.getD "data" (.obj [])).get "error").pyOr
            (data.get "error")).pyOr (data.get "message")).pyOr
            (.str "Unknown error")))
      else .pending

/-- An error propagating out of a poll loop.  The loop as written can only
produce `timeout` (the failure signals are swallowed); `failure` is in the
type so that propagation — or its absence — is expressible. -/
inductive PollError where
  | timeout (maxAttempts : ℕ)
  | failure (e : PollFailure)

/-- The `for attempt in range(max_attempts)` loop.  `remaining` counts the
attempts left (`max_attempts - attempt`).  Both `raiseCaught` and
`pending` steps sleep one interval and poll again — this is the
`except Exception: ... sleep; continue` behaviour.  Exhaustion raises
`Exception(f"... timed out after {max_attempts * poll_interval} seconds")`,
modelled as `.timeout maxAttempts`. -/
def pollFrom (step : ℕ → PollStep) (maxAttempts attempt remaining : ℕ) :
    Except PollError JVal :=
  match remaining with
  | 0 => .error (.timeout maxAttempts)
  | r + 1 =>
    match step attempt with
    | .ret u => .ok u
    | .raiseCaught _ => pollFrom step maxAttempts (attempt + 1) r
    | .pending => pollFrom step maxAttempts (attempt + 1) r

/-- `VideoGenerator._poll_for_result` over a stream of parsed responses. -/
def videoPoll (resp : ℕ → JVal) (maxAttempts : ℕ) : Except PollError JVal :=
  pollFrom (fun i => videoClassify (resp i)) maxAttempts 0 maxAttempts

/-- `ImageGenerator._poll_for_result` over a stream of parsed responses. -/
def imagePoll (jp : String → Option JVal) (resp : ℕ → JVal)
    (maxAttempts : ℕ) : Except PollError JVal :=
  pollFrom (fun i => imageClassify jp (resp i)) maxAttempts 0 maxAttempts

/-- A top-level provider error (`code != 200`). -/
def apiErrorVideoResponse : JVal :=
  .obj [("code", .num 500), ("msg", .str "server error")]

/-- A success flag with no extractable result URL anywhere. -/
def successNoUrlVideoResponse : JVal :=
  .obj [("code", .num 200), ("data", .obj [("successFlag", .num 1)])]

/-- A task-level failure (`errorCode`/`errorMessage` set). -/
def failedVideoResponse : JVal :=
  .obj [("code", .num 200),
    ("data", .obj [("successFlag", .num 0), ("errorCode", .num 500),
      ("errorMessage", .str "internal error")])]

/-- A still-pending response (`successFlag = 0`). -/
def pendingVideoResponse : JVal :=
  .obj [("code", .num 200), ("data", .obj [("successFlag", .num 0)])]

/-- A successful response carrying `data.response.resultUrls[0]`. -/
def successVideoResponse : JVal :=
  .obj [("code", .num 200),
    ("data", .obj [("successFlag", .num 1),
      ("response", .obj [("resultUrls",
        .arr [.str "http://cdn/video.mp4"])])])]

/-- An image task failure (`state = "failed"` with an `error` detail). -/
def failedImageResponse : JVal :=
  .obj [("code", .num 200),
    ("data", .obj [("state", .str "failed"),
      ("error", .str "quota exceeded")])]

/-- A `json.loads` model that parses nothing (the concrete inputs below
never reach `resultJson`). -/
def noParse : String → Option JVal := fun _ => none

/-- C1 (the code evaluated at the failing inputs): the `try` bodies
classify a provider error code, a success-without-URL response, and a
provider failure state as fatal (`raiseCaught`), yet the poll loops do not
propagate them — polling the same failing response with `max_attempts = 2`
sleeps, retries, and ends in the generic timeout error instead. -/
theorem provider_failure_retried_to_timeout :
    videoClassify apiErrorVideoResponse =
        .raiseCaught (.apiError (.num 500) (.str "server error")) ∧
      videoPoll (fun _ => apiErrorVideoResponse) 2 = .error (.timeout 2) ∧
      videoClassify successNoUrlVideoResponse =
        .raiseCaught (.noResultUrl successNoUrlVideoResponse) ∧
      videoPoll (fun _ => successNoUrlVideoResponse) 2 =
        .error (.timeout 2) ∧
      imageClassify noParse failedImageResponse =
        .raiseCaught (.taskFailed (.str "quota exceeded")) ∧
      imagePoll noParse (fun _ => failedImageResponse) 2 =
        .error (.timeout 2) :=
  ⟨rfl, rfl, rfl, rfl, rfl, rfl⟩

/-- C3 (the code evaluated at the failing input): a failure signal is
observed on every attempt, yet the loop still raises the timeout error —
so the timeout is not raised "exactly when no success or failure signal
was ever observed".  The claim's other half holds: a success with an
extractable URL on the final allowed attempt returns the URL and does not
time out. -/
theorem poll_timeout_despite_failure_signal :
    videoClassify failedVideoResponse =
        .raiseCaught (.taskFailed (.str "internal error")) ∧
      videoPoll (fun _ => failedVideoResponse) 2 = .error (.timeout 2) ∧
      videoClassify pendingVideoResponse = .pending ∧
      videoClassify successVideoResponse =
        .ret (.str "http://cdn/video.mp4") ∧
      videoPoll
          (fun i => if i = 1 then successVideoResponse
            else pendingVideoResponse) 2 =
        .ok (.str "http://cdn/video.mp4") :=
  ⟨rfl, rfl, rfl, rfl, rfl⟩

end Videeo
